import Mathlib

/-!
Verification of the multi-note-summarizer core (src/main.ts) against its
natural-language specification.

The development shallowly embeds the link-resolution, content-aggregation,
prompt-building and completion-adapter logic of `src/main.ts`:

* `AliasField`, `Document`, `Vault` model the Obsidian collaborator objects
  the code reads (TFile, metadata cache frontmatter, vault file listing and
  `cachedRead`).
* `resolveLinkedFile` embeds `SummarizerModal.resolveLinkedFile`
  (main.ts lines 261-294).
* `getLinkedContents` embeds `SummarizerModal.getLinkedContents`
  (main.ts lines 296-351); thrown I/O errors are modelled with `Except`.
* `promptContent` / `buildMessages` embed the prompt construction in
  `SummarizerModal.onOpen` (main.ts lines 234-241).
* `createClient` / `chatCompletion` embed `ApiCaller` (main.ts lines 140-177);
  the issued HTTP requests are made explicit as a trace so that claims about
  the number of network calls can be stated.
* `onOpenRequests` embeds the request-issuing behaviour of
  `SummarizerModal.onOpen` (main.ts lines 231-253), including the
  `if (false)` guard present in the source.
-/

namespace Summarizer

/-- The raw value of `fileCache?.frontmatter?.aliases` for a file: it can be
absent (no frontmatter aliases), a single string, or a list of strings
(main.ts line 283-284). -/
inductive AliasField where
  | absent : AliasField
  | single (a : String) : AliasField
  | list (as : List String) : AliasField
deriving DecidableEq, Repr

/-- JavaScript truthiness of the raw aliases value, as tested by the guard
`if (fileCache?.frontmatter?.aliases)` (main.ts line 283): an absent value is
falsy, a string is truthy unless it is empty, and an array is always truthy
(even when empty). -/
def AliasField.truthy : AliasField → Bool
  | .absent => false
  | .single a => !(a == "")
  | .list _ => true

/-- Normalization performed at main.ts line 284:
`Array.isArray(aliases) ? aliases : [aliases]` — a single string becomes a
one-element list, a list is kept as is. -/
def AliasField.normalize : AliasField → List String
  | .absent => []
  | .single a => [a]
  | .list as => as

/-- A document of the corpus: an Obsidian `TFile` together with the metadata
the code reads for it. `path` is the vault path (`TFile.path`), `basename`
the filename stripped of directory and extension (`TFile.basename`),
`rawAliases` the raw frontmatter aliases value from the metadata cache, and
`links` the `fileCache?.links` entry: `none` when the file cache has no links
field, otherwise the ordered list of outgoing link tokens (`link.link`). -/
structure Document where
  path : String
  basename : String
  rawAliases : AliasField
  links : Option (List String)
deriving DecidableEq, Repr

/-- The vault collaborator: the ordered file listing returned by
`vault.getMarkdownFiles()` (also searched by `vault.getAbstractFileByPath`),
and the `vault.cachedRead` operation, which either returns the file's text or
throws an I/O error (modelled as `Except.error`). -/
structure Vault where
  files : List Document
  read : Document → Except String String

/-- The per-file alias check of `resolveLinkedFile` (main.ts lines 281-290):
the aliases are consulted only when the raw value is truthy, and then the
normalized list is scanned for an exact match with the link text. -/
def aliasMatch (linkText : String) (f : Document) : Bool :=
  f.rawAliases.truthy && f.rawAliases.normalize.contains linkText

/-- The fallback loop of `resolveLinkedFile` (main.ts lines 271-291): for each
file in enumeration order, first its basename is compared with the link text,
then its aliases; the first file matching either way is returned. -/
def findByNameOrAlias (linkText : String) : List Document → Option Document
  | [] => none
  | f :: rest =>
    if f.basename = linkText then some f
    else if aliasMatch linkText f then some f
    else findByNameOrAlias linkText rest

/-- Embedding of `SummarizerModal.resolveLinkedFile` (main.ts lines 261-294):
first `vault.getAbstractFileByPath(linkText)` is tried (exact path lookup);
if that yields no file, the markdown files are scanned by basename and alias;
`none` models the `null` return. -/
def resolveLinkedFile (linkText : String) (files : List Document) : Option Document :=
  match files.find? (fun f => f.path = linkText) with
  | some f => some f
  | none => findByNameOrAlias linkText files

/-- The labeled aggregate entry appended at main.ts line 321:
`` `Internal Link (${link.link}):\n${content}\n\n` ``. -/
def entryFor (token text : String) : String :=
  "Internal Link (" ++ token ++ "):\n" ++ text ++ "\n\n"

/-- `Array.prototype.join('')` on the accumulated `linkedContents` array
(main.ts line 350): concatenation of all entries in order. -/
def joinAll : List String → String
  | [] => ""
  | s :: rest => s ++ joinAll rest

/-- The loop body of `getLinkedContents` over `fileCache.links`
(main.ts lines 312-326): each token is resolved; on success the resolved
file is read and a labeled entry is pushed; an unresolved token (`null`)
pushes nothing; a thrown read error is caught by the surrounding
`try { ... } catch` and the loop continues with the next token. -/
def processLinks (v : Vault) : List String → List String
  | [] => []
  | tok :: rest =>
    match resolveLinkedFile tok v.files with
    | some f =>
      match v.read f with
      | .ok content => entryFor tok content :: processLinks v rest
      | .error _ => processLinks v rest
    | none => processLinks v rest

/-- Embedding of `SummarizerModal.getLinkedContents` (main.ts lines 296-351).
A `none` file returns `""` immediately (line 300). Otherwise the root file
itself is read (`const fileContent = await vault.cachedRead(file)`, line 308,
outside any local try/catch, so a failure there escapes to the caller —
modelled by `Except.error`); then, when the file cache has a `links` field,
the link loop runs and the collected entries are joined with `''`. -/
def getLinkedContents (v : Vault) : Option Document → Except String String
  | none => .ok ""
  | some file =>
    match v.read file with
    | .error e => .error e
    | .ok _ =>
      match file.links with
      | none => .ok ""
      | some links => .ok (joinAll (processLinks v links))

/-- A chat message as built in `onOpen` (main.ts lines 238-241). -/
structure ChatMessage where
  role : String
  content : String
deriving DecidableEq, Repr

/-- The body of one outbound completion request
(`client.chat.completions.create({model, messages})`, main.ts lines 173-176). -/
structure Request where
  model : String
  messages : List ChatMessage
deriving DecidableEq, Repr

/-- The message carried by one choice of a completion response; `content` is
`none` when the provider returns no content (JS `null`/`undefined`). -/
structure ChoiceMessage where
  content : Option String
deriving DecidableEq, Repr

/-- One choice of a completion response. -/
structure Choice where
  message : ChoiceMessage
deriving DecidableEq, Repr

/-- A completion response: its list of choices. -/
structure Response where
  choices : List Choice
deriving DecidableEq, Repr

/-- The provider/model configuration held by `ApiCaller`
(main.ts lines 124-138). -/
structure Config where
  provider : String
  model : String
deriving DecidableEq, Repr

/-- Embedding of `ApiCaller.createClient` (main.ts lines 140-160): the
provider is mapped to its fixed base endpoint URL, and any other provider
value throws `` `Unsupported provider: ${provider}` `` before any client is
created. The value returned models the configured client by its base URL. -/
def createClient (provider : String) : Except String String :=
  if provider = "openai" then .ok "https://api.openai.com/v1"
  else if provider = "anthropic" then .ok "https://api.anthropic.com/v1"
  else if provider = "deepseek" then .ok "https://api.deepseek.com/v1"
  else .error ("Unsupported provider: " ++ provider)

/-- Embedding of `ApiCaller.chatCompletion` (main.ts lines 171-177): the
client is created first (which throws on an unknown provider), then exactly
one request carrying the configured model and the given messages is issued to
the transport. The first component is the trace of network requests actually
issued: empty when client creation fails, a single request otherwise. -/
def chatCompletion (cfg : Config) (transport : Request → Response)
    (messages : List ChatMessage) : List Request × Except String Response :=
  match createClient cfg.provider with
  | .error e => ([], .error e)
  | .ok _ =>
    let req : Request := { model := cfg.model, messages := messages }
    ([req], .ok (transport req))

/-- The user-message content built in `onOpen` (main.ts lines 234-236),
depending on whether linked content is summarized. -/
def promptContent (withLinks : Bool) (content additionalContent : String) : String :=
  if withLinks then
    "Please briefly summarize the following text and its linked content:\n\nMain Content:\n"
      ++ content ++ "\n\nLinked Content:\n" ++ additionalContent
  else
    "Please briefly summarize the following text:\n\n" ++ content

/-- The two-message sequence built in `onOpen` (main.ts lines 238-241): a
fixed system message and the user message. -/
def buildMessages (withLinks : Bool) (content additionalContent : String) : List ChatMessage :=
  [ { role := "system",
      content := "You are a helpful assistant that briefly summarizes text." },
    { role := "user",
      content := promptContent withLinks content additionalContent } ]

/-- The guard of the API-call branch in `SummarizerModal.onOpen`: main.ts
line 231 reads `if (false) { // TODO: Remove this test line`, with the
original guard `if (this.apiCaller)` commented out at line 232. -/
def onOpenApiGuard : Bool := false

/-- The outbound completion requests issued by one summarization invocation
(`SummarizerModal.onOpen`, main.ts lines 231-254): the single
`chatCompletion` call sits inside the branch guarded by `onOpenApiGuard`;
when the guard is false the modal only shows the raw content and no request
is issued. -/
def onOpenRequests (cfg : Config) (transport : Request → Response)
    (withLinks : Bool) (content additionalContent : String) : List Request :=
  if onOpenApiGuard then
    (chatCompletion cfg transport (buildMessages withLinks content additionalContent)).1
  else []

/-- JavaScript `x || 'No summary available'` applied to the first choice's
message content (main.ts line 246): `null`/`undefined` and the empty string
are falsy and yield the fallback literal. -/
def contentOrFallback : Option String → String
  | none => "No summary available"
  | some s => if s = "" then "No summary available" else s

/-- The summary text displayed for a completion response
(`response.choices[0].message.content || 'No summary available'`,
main.ts line 246): `none` models the TypeError JavaScript would throw when
the response has no choices at all. -/
def summaryText (r : Response) : Option String :=
  match r.choices with
  | [] => none
  | ch :: _ => some (contentOrFallback ch.message.content)

/-! ## Spec-side definitions

These follow the specification's words rather than the source, and exist to
be compared with the source-derived definitions above. -/

/-- Spec-side resolver written from the claim's words: three strictly
separated tiers — exact path; then every document's basename; only then the
documents' aliases — each scanned in corpus enumeration order with the first
match winning. -/
def resolveTieredSpec (t : String) (files : List Document) : Option Document :=
  match files.find? (fun f => f.path = t) with
  | some f => some f
  | none =>
    match files.find? (fun f => f.basename = t) with
    | some f => some f
    | none => files.find? (fun f => aliasMatch t f)

/-- Spec-side resolver written from the amended claim: exact path first;
otherwise a single pass over the corpus in enumeration order returning the
first document whose basename equals the token or whose alias set matches
it. -/
def resolveAmendedSpec (t : String) (files : List Document) : Option Document :=
  match files.find? (fun f => f.path = t) with
  | some f => some f
  | none => files.find? (fun f => decide (f.basename = t) || aliasMatch t f)

/-- Spec-side description of the aggregate entry contributed by one
reference token: a labeled entry when the token resolves and the resolved
document's text is read successfully, nothing otherwise. -/
def tokenEntry (v : Vault) (tok : String) : Option String :=
  match resolveLinkedFile tok v.files with
  | none => none
  | some f =>
    match v.read f with
    | .ok text => some (entryFor tok text)
    | .error _ => none

/-- The root document's ordered reference tokens: the `links` field of its
file cache, or no tokens when that field is absent. -/
def rootLinks (d : Document) : List String :=
  match d.links with
  | none => []
  | some ls => ls

/-! ## Helper lemmas -/

/-- The fallback loop of the resolver equals a single `find?` with the
disjunctive basename-or-alias predicate. -/
theorem findByNameOrAlias_eq_find (t : String) (fs : List Document) :
    findByNameOrAlias t fs = fs.find? (fun f => decide (f.basename = t) || aliasMatch t f) := by
  induction fs with
  | nil => rfl
  | cons f rest ih =>
    by_cases hb : f.basename = t
    · simp [findByNameOrAlias, List.find?, hb]
    · by_cases ha : aliasMatch t f
      · simp [findByNameOrAlias, List.find?, hb, ha]
      · simp [findByNameOrAlias, List.find?, hb, ha, ih]

/-- The link loop collects exactly the optional entries of the tokens, in
order. -/
theorem processLinks_eq_filterMap (v : Vault) (ls : List String) :
    processLinks v ls = ls.filterMap (tokenEntry v) := by
  induction ls with
  | nil => rfl
  | cons tok rest ih =>
    simp only [processLinks, List.filterMap_cons, tokenEntry]
    cases hres : resolveLinkedFile tok v.files with
    | none => simp [hres, ih]
    | some f =>
      cases hread : v.read f with
      | ok text => simp [hres, hread, ih]
      | error e => simp [hres, hread, ih]

/-! ## Example documents and vaults used as concrete inputs -/

/-- A document that matches the token `"target"` only through its alias and
sits first in enumeration order. -/
def aliasDoc : Document :=
  { path := "notes/alpha.md", basename := "alpha",
    rawAliases := .list ["target"], links := none }

/-- A document whose basename is `"target"`, sitting after `aliasDoc` in
enumeration order. -/
def baseDoc : Document :=
  { path := "notes/target.md", basename := "target",
    rawAliases := .absent, links := none }

/-- A document carrying another document's full path as an alias. -/
def decoyDoc : Document :=
  { path := "notes/decoy.md", basename := "decoy",
    rawAliases := .list ["notes/target.md"], links := none }

/-! ## Claim theorems -/

/-- C1, counterexample: with a corpus whose first document matches the token
`"target"` only by alias and whose second document has basename `"target"`,
the code returns the alias match, while the claim's strictly tiered
resolution (all basenames before any alias) returns the basename match. -/
theorem resolve_not_strictly_tiered :
    resolveLinkedFile "target" [aliasDoc, baseDoc] = some aliasDoc ∧
    resolveTieredSpec "target" [aliasDoc, baseDoc] = some baseDoc ∧
    aliasDoc ≠ baseDoc := by decide

/-- C1, amended: resolution tries the exact path first; otherwise it makes a
single pass over the corpus in enumeration order and returns the first
document whose basename equals the token or whose alias set matches it
(each document's basename is checked before its own aliases); otherwise
NotFound. -/
theorem resolveLinkedFile_eq_amendedSpec (t : String) (fs : List Document) :
    resolveLinkedFile t fs = resolveAmendedSpec t fs := by
  unfold resolveLinkedFile resolveAmendedSpec
  rw [findByNameOrAlias_eq_find]

/-- C5: if the corpus has a document at exact path `t` (the first such in
enumeration order), resolution returns it, regardless of any basename or
alias collisions elsewhere in the corpus. -/
theorem resolve_exact_path_wins (t : String) (fs : List Document) (d : Document)
    (h : fs.find? (fun f => f.path = t) = some d) :
    resolveLinkedFile t fs = some d := by
  unfold resolveLinkedFile
  rw [h]

/-- Witness for C5: the token `"notes/target.md"` resolves to the document
at that path even though an earlier document carries that very string as an
alias. -/
theorem resolve_exact_path_wins_witness :
    resolveLinkedFile "notes/target.md" [decoyDoc, baseDoc] = some baseDoc :=
  resolve_exact_path_wins "notes/target.md" [decoyDoc, baseDoc] baseDoc (by decide)

/-- C2: the aggregate is the in-order concatenation, following reference
discovery order, of one labeled entry per reference token that resolves and
whose text is successfully read; unresolved tokens contribute nothing and do
not abort processing; duplicate tokens are not deduplicated; and when no
reference resolves the concatenation is the empty string rather than an
error. -/
theorem aggregate_is_ordered_concat (v : Vault) (root : Document) (s : String)
    (hroot : v.read root = .ok s) :
    getLinkedContents v (some root) =
      .ok (joinAll ((rootLinks root).filterMap (tokenEntry v))) := by
  simp only [getLinkedContents]
  rw [hroot]
  cases hl : root.links with
  | none => simp [rootLinks, hl, joinAll]
  | some ls => simp [rootLinks, hl, processLinks_eq_filterMap]

/-- A small vault: `aliasDoc` and `baseDoc` are resolvable, `badDoc` is
resolvable but unreadable (its read throws), and `exRoot` links to
`"alpha"` twice and to the unknown token `"missing"`. -/
def exRoot : Document :=
  { path := "root.md", basename := "root", rawAliases := .absent,
    links := some ["alpha", "missing", "alpha"] }

/-- A resolvable document whose read fails with an I/O error. -/
def badDoc : Document :=
  { path := "notes/bad.md", basename := "bad", rawAliases := .absent,
    links := none }

/-- The read operation of the example vault: reading `badDoc` throws, every
other document yields a body derived from its basename. -/
def exRead (d : Document) : Except String String :=
  if d.path = "notes/bad.md" then .error "io failure"
  else .ok ("body of " ++ d.basename)

/-- The example vault used as concrete input for the aggregation claims. -/
def exVault : Vault :=
  { files := [exRoot, aliasDoc, badDoc, baseDoc], read := exRead }

/-- Witness for C2: on the example vault, the root's tokens
`["alpha", "missing", "alpha"]` produce exactly two identical entries for
`"alpha"` (duplicates kept, in discovery order) and none for the
unresolvable `"missing"`. -/
theorem aggregate_is_ordered_concat_witness :
    getLinkedContents exVault (some exRoot) =
      .ok (joinAll ((rootLinks exRoot).filterMap (tokenEntry exVault))) ∧
    joinAll ((rootLinks exRoot).filterMap (tokenEntry exVault)) =
      "Internal Link (alpha):\nbody of alpha\n\nInternal Link (alpha):\nbody of alpha\n\n" :=
  ⟨aggregate_is_ordered_concat exVault exRoot "body of root" rfl, by decide⟩

/-- C4: aggregation is fault-isolating — when a root's three references all
resolve but reading the second one throws, the failure is absorbed inside
the aggregator, no entry is appended for it, and the aggregate holds exactly
the first and third entries while the overall call succeeds. -/
theorem aggregation_fault_isolating (v : Vault) (root da db dc : Document)
    (a b c ta tc e s : String)
    (hroot : v.read root = .ok s)
    (hlinks : root.links = some [a, b, c])
    (ra : resolveLinkedFile a v.files = some da) (hta : v.read da = .ok ta)
    (rb : resolveLinkedFile b v.files = some db) (htb : v.read db = .error e)
    (rc : resolveLinkedFile c v.files = some dc) (htc : v.read dc = .ok tc) :
    getLinkedContents v (some root) = .ok (entryFor a ta ++ entryFor c tc) := by
  simp only [getLinkedContents]
  rw [hroot, hlinks]
  simp [processLinks, ra, hta, rb, htb, rc, htc, joinAll, String.append_empty]

/-- A root whose three links all resolve, the second to the unreadable
document. -/
def exRoot3 : Document :=
  { path := "root3.md", basename := "root3", rawAliases := .absent,
    links := some ["alpha", "bad", "notes/target.md"] }

/-- The vault for the fault-isolation witness. -/
def exVault3 : Vault :=
  { files := [exRoot3, aliasDoc, badDoc, baseDoc], read := exRead }

/-- Witness for C4: on the example vault, with the second of three
resolvable references unreadable, the aggregate holds exactly the first and
third entries. -/
theorem aggregation_fault_isolating_witness :
    getLinkedContents exVault3 (some exRoot3) =
      .ok (entryFor "alpha" "body of alpha"
            ++ entryFor "notes/target.md" "body of target") :=
  aggregation_fault_isolating exVault3 exRoot3 aliasDoc badDoc baseDoc
    "alpha" "bad" "notes/target.md" "body of alpha" "body of target"
    "io failure" "body of root3"
    rfl (by decide) (by decide) rfl (by decide) rfl (by decide) rfl

/-- C10: invoked with no root document, content aggregation returns the
empty string immediately; the result is the same for every vault, whatever
its file listing and read behaviour, so neither the resolver nor any
document read is consulted. -/
theorem getLinkedContents_no_file (v : Vault) :
    getLinkedContents v none = .ok "" := rfl

/-- A transport that always answers with an empty choice list; used as
concrete input where a transport is required. -/
def exTransport : Request → Response := fun _ => { choices := [] }

/-- C3 (code evaluation): a summarization invocation issues zero outbound
completion requests — the API-call branch of `onOpen` is guarded by the
literal `false` left in at main.ts line 231 (its own comment marks it
`TODO: Remove this test line`), so the `chatCompletion` call is never
reached, contradicting the one-request-per-invocation contract. -/
theorem onOpen_issues_no_request (cfg : Config) (transport : Request → Response)
    (withLinks : Bool) (content additionalContent : String) :
    (onOpenRequests cfg transport withLinks content additionalContent).length = 0 := rfl

/-- C6: for a provider outside `{openai, anthropic, deepseek}`, the
completion call fails with an error naming the offending provider value, and
the request trace is empty — zero network calls are issued before the
failure. -/
theorem unknown_provider_rejected (cfg : Config) (transport : Request → Response)
    (messages : List ChatMessage)
    (h1 : cfg.provider ≠ "openai") (h2 : cfg.provider ≠ "anthropic")
    (h3 : cfg.provider ≠ "deepseek") :
    chatCompletion cfg transport messages =
      ([], .error ("Unsupported provider: " ++ cfg.provider)) := by
  unfold chatCompletion createClient
  rw [if_neg h1, if_neg h2, if_neg h3]

/-- Witness for C6: the provider `"foo"` is rejected with an error naming it
and an empty request trace. -/
theorem unknown_provider_rejected_witness :
    chatCompletion { provider := "foo", model := "m" } exTransport [] =
      ([], .error "Unsupported provider: foo") :=
  unknown_provider_rejected { provider := "foo", model := "m" } exTransport []
    (by decide) (by decide) (by decide)

/-- C7: prompt building produces exactly two messages — the fixed system
message and one user message whose content is the specified full
interpolation of the root text (and, with links, the aggregate text), with
no truncation of either input. -/
theorem buildMessages_two_messages (withLinks : Bool) (rootText aggregateText : String) :
    buildMessages withLinks rootText aggregateText =
      [ { role := "system",
          content := "You are a helpful assistant that briefly summarizes text." },
        { role := "user",
          content :=
            if withLinks then
              "Please briefly summarize the following text and its linked content:\n\nMain Content:\n"
                ++ rootText ++ "\n\nLinked Content:\n" ++ aggregateText
            else
              "Please briefly summarize the following text:\n\n" ++ rootText } ] ∧
    (buildMessages withLinks rootText aggregateText).length = 2 := by
  cases withLinks <;> exact ⟨rfl, rfl⟩

/-- C8: on a response whose first choice exists, absent content and empty
content both yield the literal fallback `"No summary available"` without an
exception (the result is always present), and any other content is returned
as the summary text verbatim. -/
theorem first_choice_content_or_fallback (r : Response) (ch : Choice)
    (rest : List Choice) (h : r.choices = ch :: rest) :
    (summaryText r).isSome = true ∧
    (ch.message.content = none → summaryText r = some "No summary available") ∧
    (ch.message.content = some "" → summaryText r = some "No summary available") ∧
    (∀ s, ch.message.content = some s → s ≠ "" → summaryText r = some s) := by
  simp only [summaryText, h]
  refine ⟨rfl, ?_, ?_, ?_⟩
  · intro hc; rw [hc]; rfl
  · intro hc; rw [hc]; simp [contentOrFallback]
  · intro s hc hs; rw [hc]; simp [contentOrFallback, hs]

/-- Witness for C8: a response whose single choice has no content yields the
fallback literal. -/
theorem first_choice_content_or_fallback_witness :
    (summaryText { choices := [{ message := { content := none } }] }).isSome = true ∧
    ({ content := none : ChoiceMessage }.content = none →
      summaryText { choices := [{ message := { content := none } }] } =
        some "No summary available") ∧
    ({ content := none : ChoiceMessage }.content = some "" →
      summaryText { choices := [{ message := { content := none } }] } =
        some "No summary available") ∧
    (∀ s, ({ content := none : ChoiceMessage }.content = some s → s ≠ "" →
      summaryText { choices := [{ message := { content := none } }] } = some s)) :=
  first_choice_content_or_fallback
    { choices := [{ message := { content := none } }] }
    { message := { content := none } } [] rfl

/-- A document whose raw alias field is the single empty string. -/
def emptyStringAliasDoc : Document :=
  { path := "s.md", basename := "s", rawAliases := .single "", links := none }

/-- A document whose raw alias field is the one-element list holding the
empty string. -/
def emptyListAliasDoc : Document :=
  { path := "l.md", basename := "l", rawAliases := .list [""], links := none }

/-- C9, counterexample: for the token `""`, a document whose raw alias field
is the string `""` is not matched (the JavaScript truthiness guard on the
raw aliases value rejects the empty string before normalization), while a
document whose alias field is the list `[""]` is matched — the two storage
forms are not treated alike for every token. -/
theorem alias_single_list_divergence :
    resolveLinkedFile "" [emptyStringAliasDoc] = none ∧
    resolveLinkedFile "" [emptyListAliasDoc] = some emptyListAliasDoc := by decide

/-- C9, amended: for every non-empty token, a document whose raw alias field
is that single string is matched by the resolver exactly like a document
whose alias field is the one-element list of it — shown on the alias-tier
predicate and on resolution over the document itself. -/
theorem alias_single_eq_list (t a p b : String) (l : Option (List String))
    (h : a ≠ "") :
    aliasMatch t { path := p, basename := b, rawAliases := .single a, links := l } =
      aliasMatch t { path := p, basename := b, rawAliases := .list [a], links := l } ∧
    resolveLinkedFile t [{ path := p, basename := b, rawAliases := .single a, links := l }] =
        (resolveLinkedFile t [{ path := p, basename := b, rawAliases := .list [a], links := l }]).map
          (fun f => { f with rawAliases := .single a }) := by
  have hmatch : aliasMatch t { path := p, basename := b, rawAliases := .single a, links := l } =
      aliasMatch t { path := p, basename := b, rawAliases := .list [a], links := l } := by
    simp [aliasMatch, AliasField.truthy, AliasField.normalize, h]
  refine ⟨hmatch, ?_⟩
  unfold resolveLinkedFile findByNameOrAlias
  by_cases hp : p = t
  · simp [List.find?, hp]
  · by_cases hb : b = t
    · simp [List.find?, hp, hb]
    · by_cases ha : aliasMatch t { path := p, basename := b, rawAliases := .list [a], links := l }
      · simp [List.find?, hp, hb, hmatch, ha, findByNameOrAlias]
      · simp [List.find?, hp, hb, hmatch, ha, findByNameOrAlias]

/-- Witness for C9 amended: with the non-empty alias `"nick"`, the
single-string form and the list form match the token `"nick"` alike, and
resolution returns the corresponding document in both forms. -/
theorem alias_single_eq_list_witness :
    (aliasMatch "nick" { path := "p.md", basename := "p", rawAliases := .single "nick", links := none } =
      aliasMatch "nick" { path := "p.md", basename := "p", rawAliases := .list ["nick"], links := none }) ∧
    resolveLinkedFile "nick"
        [{ path := "p.md", basename := "p", rawAliases := .single "nick", links := none }] =
      (resolveLinkedFile "nick"
        [{ path := "p.md", basename := "p", rawAliases := .list ["nick"], links := none }]).map
          (fun f => { f with rawAliases := .single "nick" }) :=
  alias_single_eq_list "nick" "nick" "p.md" "p" none (by decide)

end Summarizer
